import Mathlib

/-!
A shallow embedding of the orbital simulator in
src/OrbitalAnimation/OrbitalAnimation/OrbitalAnimation.cpp, together with
proofs about its force model, integrator, collision handling, trail
management, orbit prediction, satellite spawning and timestep clamping.

Modelling conventions:
* float scalars are modelled as real numbers (exact arithmetic);
* sf::Vector2f is ℝ × ℝ with componentwise operations;
* sf::Vertex colours are ignored: a trail keeps positions only;
* window, camera, event and drawing code are external adapters and are
  not modelled;
* the per-frame physics pass over the satellite vector (a reverse-index
  loop that erases dead bodies in place) is modelled as a structural
  recursion over a list; the two agree because each body is read and
  written independently of all others;
* the global energy print counter only gates a debug print and touches
  no simulation state, so it is not part of the satellite step.
-/

namespace Orbital

/-- A 2-D vector (sf::Vector2f). -/
abbrev Vec2 := ℝ × ℝ

/-- Componentwise vector addition. -/
def vadd (a b : Vec2) : Vec2 := (a.1 + b.1, a.2 + b.2)

/-- Componentwise vector subtraction. -/
def vsub (a b : Vec2) : Vec2 := (a.1 - b.1, a.2 - b.2)

/-- A scalar multiple of a vector. -/
def smul (c : ℝ) (a : Vec2) : Vec2 := (c * a.1, c * a.2)

/-- Dot product; used to state that a velocity is tangent
(perpendicular) to a radial direction. -/
def dotV (a b : Vec2) : ℝ := a.1 * b.1 + a.2 * b.2

/-- Position of the central body (source line 8). -/
noncomputable def EARTH_CENTER : Vec2 := (600, 450)

/-- Gravitational constant (source line 9). -/
noncomputable def G : ℝ := 0.2

/-- Central mass (source line 10). -/
noncomputable def EARTH_MASS : ℝ := 5000

/-- Strength of the stylised J2 tangential perturbation (source line 11). -/
noncomputable def J2_STRENGTH : ℝ := 0.00005

/-- Radius of the central body (source line 12). -/
noncomputable def EARTH_RADIUS : ℝ := 90

/-- Small epsilon guarding divisions by near-zero distances
(source line 13). -/
noncomputable def MIN_DIST : ℝ := 0.001

/-- Trail capacity (source line 14). -/
def MAX_TRAIL : ℕ := 3000

/-- Maximum allowed timestep (source line 15). -/
noncomputable def MAX_DT : ℝ := 0.05

/-- Orbit speed scale factor (source line 20). -/
noncomputable def ORBIT_SPEED_SCALE : ℝ := 4

/-- A satellite (source lines 22-28): position of its shape, velocity,
trail of past positions, and the alive flag. -/
structure Sat where
  pos : Vec2
  vel : Vec2
  trail : List Vec2
  alive : Bool := true

instance : Inhabited Sat := ⟨⟨(0, 0), (0, 0), [], true⟩⟩

/-- Euclidean magnitude of a vector (source lines 30-33). -/
noncomputable def length (v : Vec2) : ℝ := Real.sqrt (v.1 * v.1 + v.2 * v.2)

/-- Normalisation with a zero-guard (source lines 35-40): the zero vector
is returned whenever the magnitude is at most MIN_DIST. -/
noncomputable def normalize (v : Vec2) : Vec2 :=
  let m := length v
  if m ≤ MIN_DIST then (0, 0) else (v.1 / m, v.2 / m)

/-- Specific mechanical energy diagnostic (source lines 42-48). Note the
source measures r from the coordinate origin: r = max(length(pos), MIN_DIST). -/
noncomputable def energy (pos vel : Vec2) : ℝ :=
  let r := max (length pos) MIN_DIST
  let KE := 0.5 * (vel.1 * vel.1 + vel.2 * vel.2)
  let PE := -G * EARTH_MASS / r
  KE + PE

/-- The energy formula as the specification words it, with r the distance
from the sampled position to the central body's position (spec 4.6
combined with the central body constant of source line 8). Kept separate
from `energy` so the two can be compared. -/
noncomputable def energyClaimed (pos vel : Vec2) : ℝ :=
  0.5 * (vel.1 * vel.1 + vel.2 * vel.2)
    - G * EARTH_MASS / max (length (vsub pos EARTH_CENTER)) MIN_DIST

/-- One integration step of the orbit predictor (the body of the loop in
source lines 58-75, minus the collision break): the direction towards the
predictor's centre is -p, i.e. the predictor attracts towards the
coordinate origin, not towards EARTH_CENTER. -/
noncomputable def predStep (p v : Vec2) (dt : ℝ) : Vec2 × Vec2 :=
  let toEarth : Vec2 := (-p.1, -p.2)
  let dist := length toEarth
  let dir := normalize toEarth
  let accel := G * EARTH_MASS / (dist * dist + MIN_DIST)
  let a := vadd (smul accel dir) (smul (J2_STRENGTH * dist) (-dir.2, dir.1))
  let v' := vadd v (smul dt a)
  let p' := vadd p (smul dt v')
  (p', v')

/-- The predictor loop (source lines 58-78): up to the given number of
iterations, stop (emitting nothing) when the current point is within
EARTH_RADIUS of the predictor's centre, otherwise integrate one step with
`predStep` and emit the new position. -/
noncomputable def predictAux (dt : ℝ) : ℕ → Vec2 → Vec2 → List Vec2
  | 0, _, _ => []
  | n + 1, p, v =>
    if length ((-p.1, -p.2) : Vec2) ≤ EARTH_RADIUS then []
    else
      (predStep p v dt).1 :: predictAux dt n (predStep p v dt).1 (predStep p v dt).2

/-- Orbit prediction (source lines 50-81); the call site (line 244) passes
dt = 0.02 and steps = 400. -/
noncomputable def predictOrbit (p v : Vec2) (dt : ℝ) (steps : ℕ) : List Vec2 :=
  predictAux dt steps p v

/-- One integration step of the live simulation (source lines 191-216,
minus the collision branch): direction towards EARTH_CENTER, inverse
square radial pull with epsilon guard, tangential J2 term, semi-implicit
Euler update. -/
noncomputable def liveStep (pos vel : Vec2) (dt : ℝ) : Vec2 × Vec2 :=
  let toEarth := vsub EARTH_CENTER pos
  let dist := length toEarth
  let dir := normalize toEarth
  let accel := G * EARTH_MASS / (dist * dist + MIN_DIST)
  let a := vadd (smul accel dir) (smul (J2_STRENGTH * dist) (-dir.2, dir.1))
  let vel' := vadd vel (smul dt a)
  let pos' := vadd pos (smul dt vel')
  (pos', vel')

/-- Trail append with amortised front eviction (source lines 218-226):
push the point at the back; if the length now exceeds MAX_TRAIL, drop
max(length - MAX_TRAIL, 16) points from the front. -/
def appendTrail (trail : List Vec2) (point : Vec2) : List Vec2 :=
  let t := trail ++ [point]
  if t.length > MAX_TRAIL then t.drop (max (t.length - MAX_TRAIL) 16) else t

/-- The per-tick update of a single live satellite (source lines 191-226):
if its current distance to EARTH_CENTER is at most EARTH_RADIUS it is
marked dead and nothing else changes; otherwise it is integrated one step
and the new position is appended to its trail. -/
noncomputable def stepSat (dt : ℝ) (sat : Sat) : Sat :=
  let toEarth := vsub EARTH_CENTER sat.pos
  let dist := length toEarth
  if dist ≤ EARTH_RADIUS then { sat with alive := false }
  else
    let dir := normalize toEarth
    let accel := G * EARTH_MASS / (dist * dist + MIN_DIST)
    let a := vadd (smul accel dir) (smul (J2_STRENGTH * dist) (-dir.2, dir.1))
    let vel' := vadd sat.vel (smul dt a)
    let pos' := vadd sat.pos (smul dt vel')
    { sat with pos := pos', vel := vel', trail := appendTrail sat.trail pos' }

/-- The physics pass of one tick over the whole collection (source lines
186-234): bodies already dead are erased before any physics runs on them;
every other body is updated by `stepSat`. -/
noncomputable def tickSats (dt : ℝ) : List Sat → List Sat
  | [] => []
  | sat :: rest =>
    if sat.alive then stepSat dt sat :: tickSats dt rest else tickSats dt rest

/-- Timestep acquisition (source lines 118-121): a non-positive wall-clock
delta is replaced by 1/60, then the result is clamped above by MAX_DT. -/
noncomputable def clampDt (dtRaw : ℝ) : ℝ :=
  let dt := if dtRaw ≤ 0 then 1 / 60 else dtRaw
  min dt MAX_DT

/-- Click spawning (source lines 144-170): if the requested world position
is more than EARTH_RADIUS + 5 away from EARTH_CENTER, append one new
satellite there with an empty trail and a circular-orbit velocity along
the tangent; otherwise do nothing. -/
noncomputable def spawnSat (worldPos : Vec2) (sats : List Sat) : List Sat :=
  let r := length (vsub worldPos EARTH_CENTER)
  if EARTH_RADIUS + 5 < r then
    let dir := normalize (vsub worldPos EARTH_CENTER)
    let tangent : Vec2 := (-dir.2, dir.1)
    let v := Real.sqrt (G * EARTH_MASS / max r MIN_DIST) * ORBIT_SPEED_SCALE
    sats ++ [{ pos := worldPos, vel := smul v tangent, trail := [], alive := true }]
  else sats

/-- The starter satellite created at program start (source lines 100-111):
position (350, 0) and velocity (0, sqrt(G*M/350) * ORBIT_SPEED_SCALE),
i.e. the circular-orbit derivation is taken about the coordinate origin
(radius 350), not about EARTH_CENTER. -/
noncomputable def starterSat : Sat :=
  { pos := (350, 0)
    vel := (0, Real.sqrt (G * EARTH_MASS / 350) * ORBIT_SPEED_SCALE)
    trail := []
    alive := true }

/-! ### Square-root evaluation helpers -/

lemma sqrt_eval {a b : ℝ} (hb : 0 ≤ b) (h : a = b * b) : Real.sqrt a = b := by
  rw [h, Real.sqrt_mul_self hb]

lemma sqrt_le_of_le_sq {a b : ℝ} (hb : 0 ≤ b) (h : a ≤ b * b) : Real.sqrt a ≤ b := by
  have h2 := Real.sqrt_le_sqrt h
  rwa [Real.sqrt_mul_self hb] at h2

lemma lt_sqrt_of_sq_lt {a b : ℝ} (hb : 0 ≤ b) (h : b * b < a) : b < Real.sqrt a := by
  have h2 := Real.sqrt_lt_sqrt (mul_self_nonneg b) h
  rwa [Real.sqrt_mul_self hb] at h2

/-! ### Vector magnitude helpers -/

lemma length_neg (p : Vec2) : length ((-p.1, -p.2) : Vec2) = length p := by
  simp only [length]
  congr 1
  ring

lemma length_smul (c : ℝ) (w : Vec2) : length (smul c w) = |c| * length w := by
  simp only [length, smul]
  rw [show c * w.1 * (c * w.1) + c * w.2 * (c * w.2)
        = c ^ 2 * (w.1 * w.1 + w.2 * w.2) by ring,
    Real.sqrt_mul (sq_nonneg c), Real.sqrt_sq_eq_abs]

lemma length_rot (w : Vec2) : length ((-w.2, w.1) : Vec2) = length w := by
  simp only [length]
  congr 1
  ring

lemma length_nonneg (v : Vec2) : 0 ≤ length v := Real.sqrt_nonneg _

lemma normalize_eq {v : Vec2} (h : MIN_DIST < length v) :
    normalize v = (v.1 / length v, v.2 / length v) := by
  simp only [normalize]
  rw [if_neg (not_le.mpr h)]

lemma normalize_length {v : Vec2} (h : MIN_DIST < length v) :
    length (normalize v) = 1 := by
  have hm : 0 < length v := lt_trans (by norm_num [MIN_DIST]) h
  have hs : length v * length v = v.1 * v.1 + v.2 * v.2 :=
    Real.mul_self_sqrt (add_nonneg (mul_self_nonneg _) (mul_self_nonneg _))
  rw [normalize_eq h]
  show Real.sqrt (v.1 / length v * (v.1 / length v)
      + v.2 / length v * (v.2 / length v)) = 1
  rw [show v.1 / length v * (v.1 / length v) + v.2 / length v * (v.2 / length v)
        = (v.1 * v.1 + v.2 * v.2) / (length v * length v) by ring, ← hs,
    div_self (mul_pos hm hm).ne']
  exact Real.sqrt_one

/-! ### Claim C9: the normalize zero-guard -/

/-- Claim C9 (confirmed): for every vector v, normalize v returns
v / |v| — a unit vector — when |v| > MIN_DIST, and returns the zero
vector when |v| ≤ MIN_DIST. -/
theorem normalize_spec (v : Vec2) :
    (length v ≤ MIN_DIST → normalize v = (0, 0)) ∧
    (MIN_DIST < length v →
      normalize v = (v.1 / length v, v.2 / length v) ∧
        length (normalize v) = 1) := by
  constructor
  · intro h
    simp only [normalize]
    rw [if_pos h]
  · intro h
    exact ⟨normalize_eq h, normalize_length h⟩

/-- Witness for C9: both branches of `normalize_spec` at concrete inputs:
the zero vector normalises to the zero vector, and (3, 4) normalises to
the unit vector (3/5, 4/5). -/
theorem normalize_spec_witness :
    normalize ((0 : ℝ), (0 : ℝ)) = (0, 0) ∧
      normalize ((3 : ℝ), (4 : ℝ)) = (3 / 5, 4 / 5) ∧
      length (normalize ((3 : ℝ), (4 : ℝ))) = 1 := by
  have h0 : length ((0 : ℝ), (0 : ℝ)) = 0 := by
    simp [length]
  have h5 : length ((3 : ℝ), (4 : ℝ)) = 5 := by
    simp only [length]
    norm_num
    exact sqrt_eval (by norm_num) (by norm_num)
  have ha := (normalize_spec ((0 : ℝ), (0 : ℝ))).1 (by rw [h0]; norm_num [MIN_DIST])
  have hb := (normalize_spec ((3 : ℝ), (4 : ℝ))).2 (by rw [h5]; norm_num [MIN_DIST])
  refine ⟨ha, ?_, hb.2⟩
  rw [hb.1, h5]

/-! ### Claim C4: the energy sampler -/

/-- Claim C4 counterexample: the energy sampler does not use the distance
to the central body's position. Evaluated at the central body's own
position with zero velocity, the code returns -G*M/750 (its distance to
the coordinate origin is 750) while the claimed formula returns
-G*M/MIN_DIST. -/
theorem energy_center_cex :
    energy ((600 : ℝ), (450 : ℝ)) ((0 : ℝ), (0 : ℝ))
      ≠ energyClaimed ((600 : ℝ), (450 : ℝ)) ((0 : ℝ), (0 : ℝ)) := by
  have ha : length ((600 : ℝ), (450 : ℝ)) = 750 := by
    simp only [length]
    norm_num
    exact sqrt_eval (by norm_num) (by norm_num)
  have hb : length (vsub ((600 : ℝ), (450 : ℝ)) EARTH_CENTER) = 0 := by
    simp [vsub, EARTH_CENTER, length]
  have hma : max (length ((600 : ℝ), (450 : ℝ))) MIN_DIST = 750 := by
    rw [ha]; exact max_eq_left (by norm_num [MIN_DIST])
  have hmb : max (length (vsub ((600 : ℝ), (450 : ℝ)) EARTH_CENTER)) MIN_DIST
      = MIN_DIST := by
    rw [hb]; exact max_eq_right (by norm_num [MIN_DIST])
  simp only [energy, energyClaimed, hma, hmb]
  norm_num [G, EARTH_MASS, MIN_DIST]

/-- Claim C4 (corrected): the energy sampler returns
0.5*|v|^2 - G*M/max(r, MIN_DIST) where r is the distance from the given
position to the coordinate origin (not to EARTH_CENTER). -/
theorem energy_formula (pos vel : Vec2) :
    energy pos vel
      = 0.5 * (vel.1 * vel.1 + vel.2 * vel.2)
        - G * EARTH_MASS / max (length pos) MIN_DIST := by
  simp only [energy]
  ring

/-! ### Claim C6: trail management -/

/-- Claim C6 (confirmed): appending a point pushes it at the back; if the
resulting length exceeds MAX_TRAIL, a block of size
max(length - MAX_TRAIL, 16) is removed from the front; consequently the
length stays at most MAX_TRAIL and the buffer is always a suffix (most
recent points, oldest first) of the pushed sequence. -/
theorem appendTrail_spec (t : List Vec2) (p : Vec2) :
    appendTrail t p
      = (t ++ [p]).drop
          (if MAX_TRAIL < t.length + 1 then max (t.length + 1 - MAX_TRAIL) 16 else 0) ∧
    (appendTrail t p).length ≤ MAX_TRAIL ∧
    List.IsSuffix (appendTrail t p) (t ++ [p]) := by
  have hlen : (t ++ [p]).length = t.length + 1 := by simp
  refine ⟨?_, ?_, ?_⟩
  · simp only [appendTrail, hlen, gt_iff_lt]
    split
    · rfl
    · rw [List.drop_zero]
  · simp only [appendTrail, hlen, gt_iff_lt]
    split
    · rw [List.length_drop, hlen]
      simp only [MAX_TRAIL] at *
      omega
    · rw [hlen]
      simp only [MAX_TRAIL] at *
      omega
  · simp only [appendTrail]
    split
    · exact List.drop_suffix _ _
    · exact List.suffix_refl _

/-! ### Claim C7: timestep clamping -/

/-- Claim C7 counterexample: a positive wall-clock delta smaller than
MIN_DIST is used as-is, so the effective timestep is not bounded below by
the program's epsilon. -/
theorem clampDt_below_eps_cex : ¬ MIN_DIST ≤ clampDt (1 / 2000) := by
  simp only [clampDt]
  rw [if_neg (by norm_num)]
  rw [min_eq_left (by norm_num [MAX_DT])]
  norm_num [MIN_DIST]

/-- Claim C7 (corrected): the effective timestep is always strictly
positive and at most MAX_DT; a zero or negative raw delta is replaced by
the 1/60 fallback, and a positive raw delta is clamped above by MAX_DT
(but is not clamped below). -/
theorem clampDt_spec (d : ℝ) :
    0 < clampDt d ∧ clampDt d ≤ MAX_DT ∧
      (d ≤ 0 → clampDt d = 1 / 60) ∧
      (0 < d → clampDt d = min d MAX_DT) := by
  by_cases hd : d ≤ 0
  · simp only [clampDt]
    rw [if_pos hd, min_eq_left (by norm_num [MAX_DT])]
    refine ⟨by norm_num, by norm_num [MAX_DT], fun _ => rfl, fun h0 => absurd hd (not_le.mpr h0)⟩
  · have h0 := not_le.mp hd
    simp only [clampDt]
    rw [if_neg hd]
    exact ⟨lt_min h0 (by norm_num [MAX_DT]), min_le_right _ _,
      fun h => absurd h hd, fun _ => rfl⟩

/-- Witness for C7: the fallback branch at raw delta -1 and the clamp
branch at raw delta 1. -/
theorem clampDt_spec_witness : clampDt (-1) = 1 / 60 ∧ clampDt 1 = MAX_DT := by
  constructor
  · exact (clampDt_spec (-1)).2.2.1 (by norm_num)
  · rw [(clampDt_spec 1).2.2.2 (by norm_num)]
    exact min_eq_right (by norm_num [MAX_DT])

/-! ### Claim C8: predictor determinism -/

/-- Claim C8 (confirmed): the orbit predictor is a pure function of the
starting position, starting velocity and the fixed parameters; two calls
with identical inputs return identical sequences. -/
theorem predictOrbit_deterministic (p v q w : Vec2) (dt : ℝ) (n : ℕ)
    (hp : p = q) (hv : v = w) :
    predictOrbit p v dt n = predictOrbit q w dt n := by
  rw [hp, hv]

/-- Witness for C8 at a concrete input. -/
theorem predictOrbit_deterministic_witness :
    predictOrbit ((100 : ℝ), (0 : ℝ)) ((0 : ℝ), (0 : ℝ)) (1 / 50) 400
      = predictOrbit ((100 : ℝ), (0 : ℝ)) ((0 : ℝ), (0 : ℝ)) (1 / 50) 400 :=
  predictOrbit_deterministic _ _ _ _ _ _ rfl rfl

/-! ### Claim C10: frame effect of collision detection -/

/-- Claim C10 (confirmed): on the tick in which a body's collision is
detected (distance to EARTH_CENTER at the start of its update at most
EARTH_RADIUS), only its alive flag changes: position, velocity and trail
are untouched because integration and the trail append are skipped. -/
theorem step_collision_frame (dt : ℝ) (s : Sat)
    (h : length (vsub EARTH_CENTER s.pos) ≤ EARTH_RADIUS) :
    (stepSat dt s).pos = s.pos ∧ (stepSat dt s).vel = s.vel ∧
      (stepSat dt s).trail = s.trail ∧ (stepSat dt s).alive = false := by
  simp only [stepSat]
  rw [if_pos h]
  exact ⟨rfl, rfl, rfl, rfl⟩

/-- Witness for C10: a body 50 units from the centre (inside the radius
90) keeps its position, velocity and trail and is marked dead. -/
theorem step_collision_frame_witness :
    (stepSat 1 ⟨(650, 450), (1, 2), [((0 : ℝ), (0 : ℝ))], true⟩).pos = (650, 450) ∧
    (stepSat 1 ⟨(650, 450), (1, 2), [((0 : ℝ), (0 : ℝ))], true⟩).vel = (1, 2) ∧
    (stepSat 1 ⟨(650, 450), (1, 2), [((0 : ℝ), (0 : ℝ))], true⟩).trail
      = [((0 : ℝ), (0 : ℝ))] ∧
    (stepSat 1 ⟨(650, 450), (1, 2), [((0 : ℝ), (0 : ℝ))], true⟩).alive = false := by
  refine step_collision_frame 1 _ ?_
  show length (vsub EARTH_CENTER ((650 : ℝ), (450 : ℝ))) ≤ EARTH_RADIUS
  have hv : vsub EARTH_CENTER ((650 : ℝ), (450 : ℝ)) = ((-50 : ℝ), (0 : ℝ)) := by
    norm_num [vsub, EARTH_CENTER]
  have hl : length ((-50 : ℝ), (0 : ℝ)) = 50 := by
    simp only [length]
    norm_num
    exact sqrt_eval (by norm_num) (by norm_num)
  rw [hv, hl]
  norm_num [EARTH_RADIUS]

/-! ### Claim C1: the alive/collision invariant of a tick -/

/-- Claim C1 counterexample: a body can end a tick alive at a position
whose distance to the centre is at most EARTH_RADIUS. Starting 100 units
from the centre (outside the radius) with inward velocity (-1000, 0) and
dt = 1/20, the integrated position lands about 50 units from the centre,
yet the body is still alive at the end of the tick: the collision test
only looks at the pre-integration position. -/
theorem tick_endstate_cex :
    ((tickSats (1 / 20) [⟨(700, 450), (-1000, 0), [], true⟩]).headI.alive = true) ∧
    length (vsub EARTH_CENTER
        ((tickSats (1 / 20) [⟨(700, 450), (-1000, 0), [], true⟩]).headI.pos))
      ≤ EARTH_RADIUS := by
  have hv : vsub EARTH_CENTER ((700 : ℝ), (450 : ℝ)) = ((-100 : ℝ), (0 : ℝ)) := by
    norm_num [vsub, EARTH_CENTER]
  have hl : length ((-100 : ℝ), (0 : ℝ)) = 100 := by
    simp only [length]
    norm_num
    exact sqrt_eval (by norm_num) (by norm_num)
  have hns : normalize ((-100 : ℝ), (0 : ℝ)) = (-1, 0) := by
    rw [normalize_eq (by rw [hl]; norm_num [MIN_DIST]), hl]
    norm_num
  have hstep : stepSat (1 / 20) ⟨(700, 450), (-1000, 0), [], true⟩
      = ⟨(6499998150 / 10000001, 35999999 / 80000),
         (-10000051000 / 10000001, -1 / 4000),
         [(6499998150 / 10000001, 35999999 / 80000)], true⟩ := by
    simp only [stepSat, hv, hl, hns]
    rw [if_neg (by norm_num [EARTH_RADIUS])]
    norm_num [vadd, smul, G, EARTH_MASS, J2_STRENGTH, MIN_DIST,
      appendTrail, MAX_TRAIL]
  have htick : tickSats (1 / 20) [⟨(700, 450), (-1000, 0), [], true⟩]
      = [stepSat (1 / 20) ⟨(700, 450), (-1000, 0), [], true⟩] := by
    simp [tickSats]
  rw [htick, hstep]
  constructor
  · rfl
  · show length (vsub EARTH_CENTER
        ((6499998150 / 10000001 : ℝ), (35999999 / 80000 : ℝ))) ≤ EARTH_RADIUS
    have hv2 : vsub EARTH_CENTER
        ((6499998150 / 10000001 : ℝ), (35999999 / 80000 : ℝ))
        = ((-499997550 / 10000001 : ℝ), (1 / 80000 : ℝ)) := by
      norm_num [vsub, EARTH_CENTER]
    rw [hv2]
    simp only [length, EARTH_RADIUS]
    exact sqrt_le_of_le_sq (by norm_num) (by norm_num)

/-- Claim C1 (corrected/amended): the tick maps `stepSat` over exactly the
bodies that were alive at its start (dead bodies are purged before any
physics runs on them), and a stepped body is alive at the end of the tick
iff it was alive and its pre-integration distance to the centre exceeded
EARTH_RADIUS — the post-integration distance is not re-checked until the
next tick. -/
theorem tick_alive_spec (dt : ℝ) (sats : List Sat) :
    tickSats dt sats = (sats.filter (fun s => s.alive)).map (stepSat dt) ∧
    ∀ s : Sat, ((stepSat dt s).alive = true
      ↔ s.alive = true ∧ EARTH_RADIUS < length (vsub EARTH_CENTER s.pos)) := by
  constructor
  · induction sats with
    | nil => simp [tickSats]
    | cons s rest ih =>
      by_cases hs : s.alive
      · simp [tickSats, hs, ih]
      · simp [tickSats, hs, ih]
  · intro s
    by_cases hc : length (vsub EARTH_CENTER s.pos) ≤ EARTH_RADIUS
    · simp only [stepSat]
      rw [if_pos hc]
      simp [not_lt.mpr hc]
    · simp only [stepSat]
      rw [if_neg hc]
      simp [not_le.mp hc]

/-! ### Claim C2: predictor step versus live integrator step -/

/-- Claim C2 refuted on the code: the predictor's step and the live
integrator's step differ as functions. At position (920, 690) with zero
velocity, the live integrator pulls towards EARTH_CENTER = (600, 450)
(distance 400) while the predictor pulls towards the coordinate origin
(distance 1150), so the two steps disagree. -/
theorem predStep_ne_liveStep :
    predStep ((920 : ℝ), (690 : ℝ)) ((0 : ℝ), (0 : ℝ)) (1 / 50)
      ≠ liveStep ((920 : ℝ), (690 : ℝ)) ((0 : ℝ), (0 : ℝ)) (1 / 50) := by
  have hl1 : length ((-920 : ℝ), (-690 : ℝ)) = 1150 := by
    simp only [length]
    norm_num
    exact sqrt_eval (by norm_num) (by norm_num)
  have hl2 : length ((-320 : ℝ), (-240 : ℝ)) = 400 := by
    simp only [length]
    norm_num
    exact sqrt_eval (by norm_num) (by norm_num)
  have hn1 : normalize ((-920 : ℝ), (-690 : ℝ)) = (-4 / 5, -3 / 5) := by
    rw [normalize_eq (by rw [hl1]; norm_num [MIN_DIST]), hl1]
    norm_num
  have hn2 : normalize ((-320 : ℝ), (-240 : ℝ)) = (-4 / 5, -3 / 5) := by
    rw [normalize_eq (by rw [hl2]; norm_num [MIN_DIST]), hl2]
    norm_num
  intro h
  have h3 := congrArg (fun q : Vec2 × Vec2 => q.2.1) h
  simp only [predStep, liveStep] at h3
  norm_num [vadd, vsub, smul, EARTH_CENTER, G, EARTH_MASS, J2_STRENGTH,
    MIN_DIST, hl1, hl2, hn1, hn2] at h3

/-! ### Claim C3: body creation -/

/-- Claim C3 counterexample: the program-start body's velocity is not
tangent to the radius taken at its position relative to EARTH_CENTER
(it is tangent to the radius taken from the coordinate origin instead). -/
theorem starter_not_tangent :
    dotV starterSat.vel (vsub starterSat.pos EARTH_CENTER) ≠ 0 := by
  have hs : 0 < Real.sqrt (G * EARTH_MASS / 350) :=
    Real.sqrt_pos.mpr (by norm_num [G, EARTH_MASS])
  have hd : dotV starterSat.vel (vsub starterSat.pos EARTH_CENTER)
      = -1800 * Real.sqrt (G * EARTH_MASS / 350) := by
    simp only [dotV, starterSat, vsub, EARTH_CENTER, ORBIT_SPEED_SCALE]
    ring
  rw [hd]
  intro h
  linarith

/-- Claim C3 (corrected/amended): a user spawn request at distance
r > EARTH_RADIUS + 5 from the centre appends exactly one new alive body
with an empty trail whose velocity has magnitude
sqrt(G*M/max(r, MIN_DIST)) * ORBIT_SPEED_SCALE and is tangent
(perpendicular) to the radius from EARTH_CENTER; a request with
r ≤ EARTH_RADIUS + 5 leaves the collection unchanged. The program-start
body instead takes its radius and tangent from the coordinate origin:
it sits at (350, 0), and its velocity is perpendicular to the origin
radius with magnitude sqrt(G*M/max(350, MIN_DIST)) * ORBIT_SPEED_SCALE. -/
theorem spawn_spec (pos : Vec2) (sats : List Sat) :
    (length (vsub pos EARTH_CENTER) ≤ EARTH_RADIUS + 5 →
      spawnSat pos sats = sats) ∧
    (EARTH_RADIUS + 5 < length (vsub pos EARTH_CENTER) →
      ∃ ns : Sat, spawnSat pos sats = sats ++ [ns] ∧ ns.pos = pos ∧
        ns.trail = [] ∧ ns.alive = true ∧
        dotV ns.vel (vsub pos EARTH_CENTER) = 0 ∧
        length ns.vel
          = Real.sqrt (G * EARTH_MASS
                / max (length (vsub pos EARTH_CENTER)) MIN_DIST)
              * ORBIT_SPEED_SCALE) ∧
    (starterSat.pos = (350, 0) ∧ starterSat.trail = [] ∧
      starterSat.alive = true ∧
      dotV starterSat.vel starterSat.pos = 0 ∧
      length starterSat.vel
        = Real.sqrt (G * EARTH_MASS / max (length starterSat.pos) MIN_DIST)
            * ORBIT_SPEED_SCALE) := by
  refine ⟨?_, ?_, rfl, rfl, rfl, ?_, ?_⟩
  · intro h
    simp only [spawnSat]
    rw [if_neg (not_lt.mpr h)]
  · intro h
    have hm : MIN_DIST < length (vsub pos EARTH_CENTER) :=
      lt_trans (by norm_num [MIN_DIST, EARTH_RADIUS]) h
    refine ⟨⟨pos,
        smul (Real.sqrt (G * EARTH_MASS
              / max (length (vsub pos EARTH_CENTER)) MIN_DIST)
            * ORBIT_SPEED_SCALE)
          (-(normalize (vsub pos EARTH_CENTER)).2,
            (normalize (vsub pos EARTH_CENTER)).1),
        [], true⟩, ?_, rfl, rfl, rfl, ?_, ?_⟩
    · simp only [spawnSat]
      rw [if_pos h]
    · rw [normalize_eq hm]
      simp only [dotV, smul]
      ring
    · rw [length_smul, length_rot, normalize_length hm,
        abs_of_nonneg (mul_nonneg (Real.sqrt_nonneg _)
          (by norm_num [ORBIT_SPEED_SCALE]))]
      ring
  · simp [dotV, starterSat]
  · have h350 : length ((350 : ℝ), (0 : ℝ)) = 350 := by
      simp only [length]
      norm_num
      exact sqrt_eval (by norm_num) (by norm_num)
    show length ((0 : ℝ), Real.sqrt (G * EARTH_MASS / 350) * ORBIT_SPEED_SCALE)
      = Real.sqrt (G * EARTH_MASS
            / max (length ((350 : ℝ), (0 : ℝ))) MIN_DIST)
          * ORBIT_SPEED_SCALE
    rw [h350, max_eq_left (by norm_num [MIN_DIST] : MIN_DIST ≤ (350 : ℝ))]
    simp only [length]
    rw [show (0 : ℝ) * 0
          + Real.sqrt (G * EARTH_MASS / 350) * ORBIT_SPEED_SCALE
            * (Real.sqrt (G * EARTH_MASS / 350) * ORBIT_SPEED_SCALE)
        = (Real.sqrt (G * EARTH_MASS / 350) * ORBIT_SPEED_SCALE) ^ 2 from by ring,
      Real.sqrt_sq (mul_nonneg (Real.sqrt_nonneg _)
        (by norm_num [ORBIT_SPEED_SCALE]))]

/-- Witness for C3: a spawn request 50 units from the centre is rejected
with the collection unchanged; one 750 units away adds exactly one body. -/
theorem spawn_spec_witness :
    spawnSat ((650 : ℝ), (450 : ℝ)) [] = [] ∧
      (spawnSat ((1350 : ℝ), (450 : ℝ)) []).length = 1 := by
  have hv1 : vsub ((650 : ℝ), (450 : ℝ)) EARTH_CENTER = ((50 : ℝ), (0 : ℝ)) := by
    norm_num [vsub, EARTH_CENTER]
  have hl1 : length ((50 : ℝ), (0 : ℝ)) = 50 := by
    simp only [length]
    norm_num
    exact sqrt_eval (by norm_num) (by norm_num)
  have hv2 : vsub ((1350 : ℝ), (450 : ℝ)) EARTH_CENTER = ((750 : ℝ), (0 : ℝ)) := by
    norm_num [vsub, EARTH_CENTER]
  have hl2 : length ((750 : ℝ), (0 : ℝ)) = 750 := by
    simp only [length]
    norm_num
    exact sqrt_eval (by norm_num) (by norm_num)
  constructor
  · exact (spawn_spec ((650 : ℝ), (450 : ℝ)) []).1
      (by rw [hv1, hl1]; norm_num [EARTH_RADIUS])
  · obtain ⟨ns, heq, -, -, -, -, -⟩ := (spawn_spec ((1350 : ℝ), (450 : ℝ)) []).2.1
      (by rw [hv2, hl2]; norm_num [EARTH_RADIUS])
    rw [heq]
    rfl

/-! ### Claim C5: shape of the predicted path -/

lemma predictAux_length_le (dt : ℝ) (n : ℕ) (p v : Vec2) :
    (predictAux dt n p v).length ≤ n := by
  induction n generalizing p v with
  | zero => simp [predictAux]
  | succ n ih =>
    simp only [predictAux]
    split
    · simp
    · simp only [List.length_cons]
      exact Nat.succ_le_succ (ih _ _)

lemma predictAux_ne_nil_dist (dt : ℝ) (n : ℕ) (p v : Vec2)
    (h : predictAux dt n p v ≠ []) : EARTH_RADIUS < length p := by
  cases n with
  | zero => simp [predictAux] at h
  | succ n =>
    by_cases hc : length ((-p.1, -p.2) : Vec2) ≤ EARTH_RADIUS
    · simp only [predictAux] at h
      rw [if_pos hc] at h
      exact absurd rfl h
    · rw [← length_neg]
      exact not_le.mp hc

lemma predictAux_interior (dt : ℝ) (n : ℕ) (p v : Vec2) (i : ℕ)
    (h : i + 1 < (predictAux dt n p v).length) :
    EARTH_RADIUS < length ((predictAux dt n p v).getD i (0, 0)) := by
  induction n generalizing p v i with
  | zero => simp [predictAux] at h
  | succ n ih =>
    by_cases hc : length ((-p.1, -p.2) : Vec2) ≤ EARTH_RADIUS
    · simp only [predictAux] at h
      rw [if_pos hc] at h
      simp at h
    · simp only [predictAux] at h ⊢
      rw [if_neg hc] at h ⊢
      cases i with
      | zero =>
        rw [List.getD_cons_zero]
        apply predictAux_ne_nil_dist dt n (predStep p v dt).1 (predStep p v dt).2
        intro hnil
        rw [hnil] at h
        simp at h
      | succ i =>
        rw [List.getD_cons_succ]
        apply ih
        simp only [List.length_cons] at h
        omega

/-- Claim C5 counterexample: the predictor can emit a point that lies
within the central radius. From 100 units out with inward velocity
(-1000, 0) and one step of dt = 1/50, the single emitted point is about
80 units from the predictor's centre — inside the radius 90 — because
each new point is appended before it is ever collision-tested. -/
theorem predict_emits_inside :
    (predictOrbit ((100 : ℝ), (0 : ℝ)) ((-1000 : ℝ), (0 : ℝ)) (1 / 50) 1).length = 1 ∧
    length ((predictOrbit ((100 : ℝ), (0 : ℝ)) ((-1000 : ℝ), (0 : ℝ)) (1 / 50) 1).getD 0 (0, 0))
      ≤ EARTH_RADIUS := by
  have hl : length ((-100 : ℝ), (0 : ℝ)) = 100 := by
    simp only [length]
    norm_num
    exact sqrt_eval (by norm_num) (by norm_num)
  have hns : normalize ((-100 : ℝ), (0 : ℝ)) = (-1, 0) := by
    rw [normalize_eq (by rw [hl]; norm_num [MIN_DIST]), hl]
    norm_num
  have hstep : predStep ((100 : ℝ), (0 : ℝ)) ((-1000 : ℝ), (0 : ℝ)) (1 / 50)
      = ((799999680 / 10000001, -1 / 500000),
         (-10000021000 / 10000001, -1 / 10000)) := by
    simp only [predStep, neg_zero]
    norm_num [vadd, smul, G, EARTH_MASS, J2_STRENGTH, MIN_DIST, hl, hns]
  have hcond : ¬ length ((-100 : ℝ), (0 : ℝ)) ≤ EARTH_RADIUS := by
    rw [hl]
    norm_num [EARTH_RADIUS]
  have hout : predictOrbit ((100 : ℝ), (0 : ℝ)) ((-1000 : ℝ), (0 : ℝ)) (1 / 50) 1
      = [(799999680 / 10000001, -1 / 500000)] := by
    simp only [predictOrbit, predictAux, neg_zero]
    rw [if_neg hcond, hstep]
  rw [hout]
  refine ⟨rfl, ?_⟩
  rw [List.getD_cons_zero]
  simp only [length, EARTH_RADIUS]
  exact sqrt_le_of_le_sq (by norm_num) (by norm_num)

/-- Claim C5 (corrected/amended): the predictor collision-tests the
current point at the top of each iteration and stops emitting once it is
within the central radius, so the output has at most `steps` entries, is
empty when the input position already collides, and every emitted point
other than possibly the last lies strictly outside the central radius;
the final point may lie inside it, since a freshly integrated point is
appended without being tested until the next iteration. -/
theorem predictOrbit_spec (p v : Vec2) (dt : ℝ) (n : ℕ) :
    (predictOrbit p v dt n).length ≤ n ∧
    (length p ≤ EARTH_RADIUS → predictOrbit p v dt n = []) ∧
    ∀ i : ℕ, (predictOrbit p v dt n).length ≤ i + 1 ∨
      EARTH_RADIUS < length ((predictOrbit p v dt n).getD i (0, 0)) := by
  refine ⟨predictAux_length_le dt n p v, ?_, ?_⟩
  · intro h
    cases n with
    | zero => simp [predictOrbit, predictAux]
    | succ m =>
      simp only [predictOrbit, predictAux]
      rw [if_pos (show length ((-p.1, -p.2) : Vec2) ≤ EARTH_RADIUS from by
        rw [length_neg]; exact h)]
  · intro i
    by_cases hi : (predictOrbit p v dt n).length ≤ i + 1
    · exact Or.inl hi
    · exact Or.inr (predictAux_interior dt n p v i (not_le.mp hi))

/-- Witness for C5: a start position already inside the central radius
yields the empty prediction, and the length bound holds there. -/
theorem predictOrbit_spec_witness :
    predictOrbit ((0 : ℝ), (0 : ℝ)) ((0 : ℝ), (0 : ℝ)) (1 / 50) 400 = [] ∧
      (predictOrbit ((0 : ℝ), (0 : ℝ)) ((0 : ℝ), (0 : ℝ)) (1 / 50) 400).length ≤ 400 := by
  have h := predictOrbit_spec ((0 : ℝ), (0 : ℝ)) ((0 : ℝ), (0 : ℝ)) (1 / 50) 400
  refine ⟨h.2.1 ?_, h.1⟩
  have h0 : length ((0 : ℝ), (0 : ℝ)) = 0 := by simp [length]
  rw [h0]
  norm_num [EARTH_RADIUS]

end Orbital
